import Mathlib

/- Verification development for the document-qa repository's session-scoped
   vector-store lifecycle: a shallow embedding of `app/qa_pipeline.py` and
   `app/gcs_storage.py` (with configuration constants from `app/config.py`),
   together with theorems settling the specification's claims.

   Machine-level details are modelled over `Nat`: `hashlib.md5` is embedded
   bit-faithfully on byte lists (bytes are `Nat < 256`, words are
   `Nat < 2^32` with explicit `% 2^32`), and `str.encode()` is the UTF-8
   encoding of the string's characters. -/

namespace DocQA

/-! ### Bytes: `str.encode()` (UTF-8) -/

/-- UTF-8 encoding of one Unicode code point, as a list of bytes. -/
def charUTF8 (n : Nat) : List Nat :=
  if n < 128 then [n]
  else if n < 2048 then [192 + n / 64, 128 + n % 64]
  else if n < 65536 then [224 + n / 4096, 128 + n / 64 % 64, 128 + n % 64]
  else [240 + n / 262144, 128 + n / 4096 % 64, 128 + n / 64 % 64, 128 + n % 64]

/-- `s.encode()`: UTF-8 bytes of a Python string. -/
def strBytes (s : String) : List Nat :=
  s.data.flatMap (fun c => charUTF8 c.toNat)

/-! ### MD5 (`hashlib.md5(...).hexdigest()`) -/

def U32 : Nat := 4294967296

def add32 (a b : Nat) : Nat := (a + b) % U32

def not32 (a : Nat) : Nat := Nat.xor a 4294967295

def rotl32 (x s : Nat) : Nat := Nat.lor ((x <<< s) % U32) (x >>> (32 - s))

/-- The 64 MD5 sine-derived constants. -/
def MD5K : List Nat :=
  [0xd76aa478, 0xe8c7b756, 0x242070db, 0xc1bdceee,
   0xf57c0faf, 0x4787c62a, 0xa8304613, 0xfd469501,
   0x698098d8, 0x8b44f7af, 0xffff5bb1, 0x895cd7be,
   0x6b901122, 0xfd987193, 0xa679438e, 0x49b40821,
   0xf61e2562, 0xc040b340, 0x265e5a51, 0xe9b6c7aa,
   0xd62f105d, 0x02441453, 0xd8a1e681, 0xe7d3fbc8,
   0x21e1cde6, 0xc33707d6, 0xf4d50d87, 0x455a14ed,
   0xa9e3e905, 0xfcefa3f8, 0x676f02d9, 0x8d2a4c8a,
   0xfffa3942, 0x8771f681, 0x6d9d6122, 0xfde5380c,
   0xa4beea44, 0x4bdecfa9, 0xf6bb4b60, 0xbebfbc70,
   0x289b7ec6, 0xeaa127fa, 0xd4ef3085, 0x04881d05,
   0xd9d4d039, 0xe6db99e5, 0x1fa27cf8, 0xc4ac5665,
   0xf4292244, 0x432aff97, 0xab9423a7, 0xfc93a039,
   0x655b59c3, 0x8f0ccc92, 0xffeff47d, 0x85845dd1,
   0x6fa87e4f, 0xfe2ce6e0, 0xa3014314, 0x4e0811a1,
   0xf7537e82, 0xbd3af235, 0x2ad7d2bb, 0xeb86d391]

/-- The 64 per-round left-rotation amounts. -/
def MD5S : List Nat :=
  [7, 12, 17, 22, 7, 12, 17, 22, 7, 12, 17, 22, 7, 12, 17, 22,
   5, 9, 14, 20, 5, 9, 14, 20, 5, 9, 14, 20, 5, 9, 14, 20,
   4, 11, 16, 23, 4, 11, 16, 23, 4, 11, 16, 23, 4, 11, 16, 23,
   6, 10, 15, 21, 6, 10, 15, 21, 6, 10, 15, 21, 6, 10, 15, 21]

/-- Little-endian 32-bit word at index `j` of a 64-byte block. -/
def wordAt (b : List Nat) (j : Nat) : Nat :=
  b.getD (4 * j) 0 + 256 * b.getD (4 * j + 1) 0 +
    65536 * b.getD (4 * j + 2) 0 + 16777216 * b.getD (4 * j + 3) 0

/-- One of the 64 MD5 rounds over state `(a, b, c, d)`. -/
def md5round (M : List Nat) (st : Nat × Nat × Nat × Nat) (i : Nat) :
    Nat × Nat × Nat × Nat :=
  let a := st.1
  let b := st.2.1
  let c := st.2.2.1
  let d := st.2.2.2
  let f :=
    if i < 16 then Nat.lor (Nat.land b c) (Nat.land (not32 b) d)
    else if i < 32 then Nat.lor (Nat.land d b) (Nat.land (not32 d) c)
    else if i < 48 then Nat.xor b (Nat.xor c d)
    else Nat.xor c (Nat.lor b (not32 d))
  let g :=
    if i < 16 then i
    else if i < 32 then (5 * i + 1) % 16
    else if i < 48 then (3 * i + 5) % 16
    else (7 * i) % 16
  let tmp := add32 (add32 (add32 f a) (MD5K.getD i 0)) (wordAt M g)
  (d, add32 b (rotl32 tmp (MD5S.getD i 0)), b, c)

/-- Compression of one 64-byte block into the running state. -/
def md5block (st : Nat × Nat × Nat × Nat) (M : List Nat) :
    Nat × Nat × Nat × Nat :=
  let r := (List.range 64).foldl (md5round M) st
  (add32 st.1 r.1, add32 st.2.1 r.2.1,
   add32 st.2.2.1 r.2.2.1, add32 st.2.2.2 r.2.2.2)

/-- Little-endian 8-byte serialization of the message bit length. -/
def le64Bytes (n : Nat) : List Nat :=
  [n % 256, n / 256 % 256, n / 65536 % 256, n / 16777216 % 256,
   n / 4294967296 % 256, n / 1099511627776 % 256,
   n / 281474976710656 % 256, n / 72057594037927936 % 256]

/-- MD5 padding: `0x80`, zeros to 56 mod 64, then the 64-bit bit length. -/
def md5pad (msg : List Nat) : List Nat :=
  msg ++ [128] ++ List.replicate ((119 - msg.length % 64) % 64) 0 ++
    le64Bytes ((msg.length * 8) % 18446744073709551616)

/-- Split a byte list into 64-byte blocks (structural on a length fuel,
so that it reduces in the kernel). -/
def chunk64F : Nat → List Nat → List (List Nat)
  | 0, _ => []
  | _ + 1, [] => []
  | fuel + 1, l => l.take 64 :: chunk64F fuel (l.drop 64)

/-- Split a (padded) byte list into 64-byte blocks. -/
def chunk64 (l : List Nat) : List (List Nat) :=
  chunk64F l.length l

/-- The four final MD5 state words for a byte message. -/
def md5words (msg : List Nat) : Nat × Nat × Nat × Nat :=
  (chunk64 (md5pad msg)).foldl md5block
    (1732584193, 4023233417, 2562383102, 271733878)

/-- Little-endian bytes of one 32-bit word. -/
def wordLEBytes (w : Nat) : List Nat :=
  [w % 256, w / 256 % 256, w / 65536 % 256, w / 16777216 % 256]

/-- The 16 MD5 digest bytes of a byte message. -/
def md5DigestBytes (msg : List Nat) : List Nat :=
  wordLEBytes (md5words msg).1 ++ wordLEBytes (md5words msg).2.1 ++
    wordLEBytes (md5words msg).2.2.1 ++ wordLEBytes (md5words msg).2.2.2

/-- The sixteen lowercase hexadecimal digits. -/
def HEXCHARS : List Char := "0123456789abcdef".data

/-- Two lowercase hex characters of one byte (`"%02x" % b`). -/
def byteHexChars (b : Nat) : List Char :=
  [HEXCHARS.getD (b / 16 % 16) '0', HEXCHARS.getD (b % 16) '0']

/-- `hashlib.md5(x.encode()).hexdigest()` as a character list. -/
def md5HexChars (x : String) : List Char :=
  (md5DigestBytes (strBytes x)).flatMap byteHexChars

/-! ### Configuration constants (`app/config.py`) -/

def CHROMA_PERSIST_DIRECTORY : String := "./chroma_db"

def CHROMA_COLLECTION_TAG : String := "user_documents"

def GCS_CHROMA_ROOT : String := "chroma_db/"

/-! ### Collection naming (`QAPipeline.generate_collection_name`) -/

/-- `hashlib.md5(x.encode()).hexdigest()[:8]`. -/
def safe_id (x : String) : String := String.mk ((md5HexChars x).take 8)

/-- `QAPipeline.generate_collection_name(user_id, session_id)`. -/
def generate_collection_name (user_id session_id : String) : String :=
  CHROMA_COLLECTION_TAG ++ "_" ++ safe_id user_id ++ "_" ++ safe_id session_id

/-- `QAPipeline._get_collection_local_path(user_id, session_id)`. -/
def collection_local_path (user_id session_id : String) : String :=
  CHROMA_PERSIST_DIRECTORY ++ "/" ++ generate_collection_name user_id session_id

/-- The GCS key root `f"{GCS_CHROMA_PREFIX}{user_id}/{session_id}/"`. -/
def gcs_collection_root (user_id session_id : String) : String :=
  GCS_CHROMA_ROOT ++ user_id ++ "/" ++ session_id ++ "/"

/-! ### Association-list helpers for the modelled stores -/

/-- Lookup in an association list (leftmost binding wins). -/
def alookup {α : Type} : List (String × α) → String → Option α
  | [], _ => none
  | (k, v) :: t, key => if k = key then some v else alookup t key

/-- Remove every binding of a key. -/
def aremove {α : Type} : List (String × α) → String → List (String × α)
  | [], _ => []
  | (k, v) :: t, key => if k = key then aremove t key else (k, v) :: aremove t key

/-- Overwrite the binding of a key. -/
def aset {α : Type} (l : List (String × α)) (k : String) (v : α) :
    List (String × α) :=
  (k, v) :: aremove l k

/-- Remove a key's entry when present, else leave the store unchanged
(`delete_collection` guarded by `get_collection`, and `shutil.rmtree`
guarded by `os.path.exists`). -/
def drop_if_present (l : List (String × List String)) (k : String) :
    List (String × List String) :=
  match alookup l k with
  | some _ => aremove l k
  | none => l

/-- `os.makedirs(p, exist_ok=True)`: create the directory if absent. -/
def ensure_dir (fs : List (String × List String)) (p : String) :
    List (String × List String) :=
  match alookup fs p with
  | some _ => fs
  | none => (p, []) :: fs

/-- Python's `key.startswith(root)` on object-store keys. -/
def startsKey (key root : String) : Bool :=
  root.data.isPrefixOf key.data

/-! ### Remote archive state (`app/gcs_storage.py`)

`client = false` models `self.client = None` (degraded construction);
`blobs` is the set of object keys in the bucket. External network failures
inside an operation are modelled by explicit error oracles: the `try/except`
blocks of the source turn them into boolean results. -/

structure GCS where
  client : Bool
  blobs : List String
deriving DecidableEq, Repr

/-- `GCSStorage.upload_chroma_collection`. `localFiles` is `os.walk`'s view
of the local directory (`none` when the path does not exist); `errAt k`
means blob upload number `k` raises, which the source catches and turns
into `False`. -/
def upload_chroma_collection (g : GCS) (localFiles : Option (List String))
    (user_id session_id : String) (errAt : Option Nat) : Bool × GCS :=
  if !g.client then (false, g)
  else
    let root := gcs_collection_root user_id session_id
    match localFiles with
    | none => (false, g)
    | some files =>
      match errAt with
      | some k =>
        if k < files.length then
          (false, ⟨g.client, g.blobs ++ (files.take k).map (fun f => root ++ f)⟩)
        else
          (decide (files.length > 0),
            ⟨g.client, g.blobs ++ files.map (fun f => root ++ f)⟩)
      | none =>
        (decide (files.length > 0),
          ⟨g.client, g.blobs ++ files.map (fun f => root ++ f)⟩)

/-- `GCSStorage.collection_exists` (`list_blobs(prefix, max_results=1)`;
a listing failure is caught and reported as `False`). -/
def collection_exists (g : GCS) (user_id session_id : String)
    (netErr : Bool) : Bool :=
  if !g.client then false
  else if netErr then false
  else g.blobs.any (fun k => startsKey k (gcs_collection_root user_id session_id))

/-- `GCSStorage.delete_chroma_collection` (deletes every key under the
pair's root; returns `True` with no client, `False` on a caught network
error). -/
def delete_chroma_collection (g : GCS) (user_id session_id : String)
    (netErr : Bool) : Bool × GCS :=
  if !g.client then (true, g)
  else if netErr then (false, g)
  else
    (true, ⟨g.client,
      g.blobs.filter
        (fun k => !startsKey k (gcs_collection_root user_id session_id))⟩)

/-! ### Pipeline state (`app/qa_pipeline.py`)

`colls` is the ChromaDB client's collections (name to stored documents),
`fs` the local directories (path to contained relative file names), `gcs`
the remote archive. -/

structure PState where
  colls : List (String × List String)
  fs : List (String × List String)
  gcs : GCS
deriving DecidableEq, Repr

/-- `GCSStorage.download_chroma_collection`: `makedirs` the local path,
list the keys under the pair's root, write each (skipping the bare root
key) into the local directory; `True` iff at least one file was written.
A listing failure after `makedirs` is caught and reported as `False`. -/
def download_chroma_collection (st : PState)
    (localPath user_id session_id : String) (netErr : Bool) : Bool × PState :=
  if !st.gcs.client then (false, st)
  else
    let fs1 := ensure_dir st.fs localPath
    if netErr then (false, ⟨st.colls, fs1, st.gcs⟩)
    else
      let root := gcs_collection_root user_id session_id
      let rels :=
        (st.gcs.blobs.filter (fun k => startsKey k root && decide (k ≠ root))).map
          (fun k => k.drop root.length)
      let fs2 := aset fs1 localPath ((alookup fs1 localPath).getD [] ++ rels)
      (decide (rels.length > 0), ⟨st.colls, fs2, st.gcs⟩)

/-- Failure modes of `QAPipeline.create_vector_store`: the explicit
`ValueError`s of the source and a raising external library call. -/
inductive CreateErr
  | noChunks
  | emptyStore
  | libraryError
deriving DecidableEq, Repr

/-- Whether an `Except` result is a success. -/
def okB {ε α : Type} : Except ε α → Bool
  | .ok _ => true
  | .error _ => false

/-- External behaviour oracles for one `create_vector_store` call:
whether `Chroma.from_documents` raises, whether it actually stores the
given chunks (`insertOk = false` models an insert that reports success
but stores nothing), whether and what it persists at the collection's
local path, and whether the GCS upload raises. -/
structure CreateEnv where
  fromDocsRaises : Bool
  insertOk : Bool
  persistsDir : Bool
  persistedFiles : List String
  uploadErrAt : Option Nat
deriving DecidableEq, Repr

/-- `QAPipeline.create_vector_store(chunks, user_id, session_id)`.
Returns the re-raised error or the usable handle (identified by its
collection name), together with the post state. -/
def create_vector_store (st : PState) (env : CreateEnv) (chunks : List String)
    (user_id session_id : String) : Except CreateErr String × PState :=
  if chunks.isEmpty then (.error .noChunks, st)
  else
    let name := generate_collection_name user_id session_id
    let colls1 := drop_if_present st.colls name
    if env.fromDocsRaises then (.error .libraryError, ⟨colls1, st.fs, st.gcs⟩)
    else
      let stored := if env.insertOk then chunks else []
      let colls2 := aset colls1 name ((alookup colls1 name).getD [] ++ stored)
      let path := collection_local_path user_id session_id
      let fs2 := if env.persistsDir then aset st.fs path env.persistedFiles else st.fs
      match alookup colls2 name with
      | none => (.error .libraryError, ⟨colls2, fs2, st.gcs⟩)
      | some docs =>
        if docs.length = 0 then (.error .emptyStore, ⟨colls2, fs2, st.gcs⟩)
        else
          let g2 := match alookup fs2 path with
            | some files =>
              (upload_chroma_collection st.gcs (some files) user_id session_id
                env.uploadErrAt).2
            | none => st.gcs
          (.ok name, ⟨colls2, fs2, g2⟩)

/-- External behaviour oracles for one `load_vector_store` call: whether
the liveness `similarity_search` probe throws on the locally opened store,
network failures of the existence probe and the download, and whether the
probe or the `get_collection` call throws on the downloaded store. -/
structure LoadEnv where
  localProbeThrows : Bool
  gcsNetErr : Bool
  dlNetErr : Bool
  dlProbeThrows : Bool
  dlGetCollThrows : Bool
deriving DecidableEq, Repr

/-- The local fast path of `load_vector_store`: the collection is present,
has a positive count, and the liveness probe did not throw. -/
def local_live (st : PState) (env : LoadEnv) (name : String) : Bool :=
  match alookup st.colls name with
  | some docs => decide (docs.length > 0) && !env.localProbeThrows
  | none => false

/-- `QAPipeline.load_vector_store(user_id, session_id)`: local attempt,
then remote existence check, download, reopen with liveness probe, and
cleanup of a corrupted download. Every failure path yields `none`. -/
def load_vector_store (st : PState) (env : LoadEnv)
    (user_id session_id : String) : Option String × PState :=
  let name := generate_collection_name user_id session_id
  let path := collection_local_path user_id session_id
  if local_live st env name then (some name, st)
  else if collection_exists st.gcs user_id session_id env.gcsNetErr then
    let dl := download_chroma_collection st path user_id session_id env.dlNetErr
    if dl.1 then
      if env.dlProbeThrows || env.dlGetCollThrows then
        (none, ⟨dl.2.colls, drop_if_present dl.2.fs path, dl.2.gcs⟩)
      else (some name, dl.2)
    else (none, dl.2)
  else (none, st)

/-- External behaviour oracles for one `delete_vector_store` call:
whether `shutil.rmtree` raises, and whether the remote deletion hits a
network error. -/
structure DeleteEnv where
  rmtreeRaises : Bool
  gcsNetErr : Bool
deriving DecidableEq, Repr

/-- `QAPipeline.delete_vector_store(user_id, session_id)`: local
collection deletion (a raise, e.g. "collection not found", is caught and
flips `success`), local file removal (a raise is caught and only logged),
then remote deletion (a `False` result flips `success`). -/
def delete_vector_store (st : PState) (env : DeleteEnv)
    (user_id session_id : String) : Bool × PState :=
  let name := generate_collection_name user_id session_id
  let path := collection_local_path user_id session_id
  let localOk := (alookup st.colls name).isSome
  let colls1 := drop_if_present st.colls name
  let fs1 := match alookup st.fs path with
    | some _ => if env.rmtreeRaises then st.fs else aremove st.fs path
    | none => st.fs
  let del := delete_chroma_collection st.gcs user_id session_id env.gcsNetErr
  (localOk && del.1, ⟨colls1, fs1, del.2⟩)

/-- Outcome of the bucket accessibility check in `GCSStorage.__init__`:
the bucket exists, it does not exist, or the check itself raises. -/
inductive BucketCheck
  | okExists
  | notExists
  | raises
deriving DecidableEq, Repr

/-- `GCSStorage.__init__`: `acquireRaises` models a raise while acquiring
credentials/client/bucket handles; `check` is the bucket accessibility
probe. Returns the `client` flag of the constructed object, or an error
when the constructor re-raises. -/
def gcs_init (isProd : Bool) (acquireRaises : Bool) (check : BucketCheck) :
    Except Unit Bool :=
  if acquireRaises then
    if isProd then .error () else .ok false
  else
    match check with
    | .okExists => .ok true
    | .notExists => if isProd then .error () else .ok true
    | .raises => if isProd then .error () else .ok true

/-! ### Helper lemmas -/

theorem alookup_aremove_self {α : Type} (l : List (String × α)) (k : String) :
    alookup (aremove l k) k = none := by
  induction l with
  | nil => rfl
  | cons p t ih =>
    obtain ⟨a, b⟩ := p
    by_cases h : a = k
    · simpa [aremove, h] using ih
    · simpa [aremove, alookup, h] using ih

theorem alookup_aremove_ne {α : Type} (l : List (String × α)) {k k' : String}
    (h : k' ≠ k) : alookup (aremove l k) k' = alookup l k' := by
  induction l with
  | nil => rfl
  | cons p t ih =>
    obtain ⟨a, b⟩ := p
    by_cases ha : a = k
    · subst ha
      have hak : a ≠ k' := fun hk => h hk.symm
      simp [aremove, alookup, hak, ih]
    · by_cases ha' : a = k'
      · simp [aremove, alookup, ha, ha', h]
      · simp [aremove, alookup, ha, ha', ih]

theorem alookup_aset_self {α : Type} (l : List (String × α)) (k : String)
    (v : α) : alookup (aset l k v) k = some v := by
  simp [aset, alookup]

theorem alookup_aset_ne {α : Type} (l : List (String × α)) {k k' : String}
    (v : α) (h : k' ≠ k) : alookup (aset l k v) k' = alookup l k' := by
  have : k ≠ k' := fun hk => h hk.symm
  simp [aset, alookup, this, alookup_aremove_ne l h]

theorem alookup_drop_self (l : List (String × List String)) (k : String) :
    alookup (drop_if_present l k) k = none := by
  unfold drop_if_present
  cases h : alookup l k with
  | some v => simp [alookup_aremove_self]
  | none => simpa using h

theorem alookup_drop_ne (l : List (String × List String)) {k k' : String}
    (h : k' ≠ k) : alookup (drop_if_present l k) k' = alookup l k' := by
  unfold drop_if_present
  cases hl : alookup l k with
  | some v => simp [alookup_aremove_ne l h]
  | none => simp

theorem filter_idem {α : Type} (p : α → Bool) (l : List α) :
    (l.filter p).filter p = l.filter p := by
  induction l with
  | nil => rfl
  | cons a t ih =>
    cases hpa : p a <;> simp [List.filter_cons, hpa, ih]

theorem str_data_append (a b : String) : (a ++ b).data = a.data ++ b.data := rfl

theorem str_ext {a b : String} (h : a.data = b.data) : a = b := by
  cases a
  cases b
  exact congrArg String.mk h

theorem str_append_left_cancel {a b c : String} (h : a ++ b = a ++ c) :
    b = c := by
  apply str_ext
  have hd := congrArg String.data h
  rw [str_data_append, str_data_append] at hd
  exact List.append_cancel_left hd

theorem local_path_ne {u1 s1 u2 s2 : String}
    (h : generate_collection_name u1 s1 ≠ generate_collection_name u2 s2) :
    collection_local_path u1 s1 ≠ collection_local_path u2 s2 := by
  intro hp
  exact h (str_append_left_cancel hp)

theorem startsKey_append_false {p1 p2 : String}
    (h12 : p1.data.isPrefixOf p2.data = false)
    (h21 : p2.data.isPrefixOf p1.data = false) (f : String) :
    startsKey (p1 ++ f) p2 = false := by
  cases hb : startsKey (p1 ++ f) p2 with
  | false => rfl
  | true =>
    exfalso
    have h2 : p2.data <+: (p1 ++ f).data := by
      have := hb
      unfold startsKey at this
      rwa [ List.isPrefixOf_iff_prefix] at this
    rw [str_data_append] at h2
    have h1 : p1.data <+: p1.data ++ f.data := List.prefix_append _ _
    have hcomp := List.prefix_or_prefix_of_prefix h1 h2
    cases hcomp with
    | inl hc =>
      rw [← List.isPrefixOf_iff_prefix] at hc
      rw [h12] at hc
      exact Bool.false_ne_true hc
    | inr hc =>
      rw [← List.isPrefixOf_iff_prefix] at hc
      rw [h21] at hc
      exact Bool.false_ne_true hc

/-- The upload only appends keys, all under the pair's root, and keeps the
client flag. -/
theorem upload_shape (g : GCS) (files : Option (List String))
    (u s : String) (e : Option Nat) :
    ((upload_chroma_collection g files u s e).2).client = g.client ∧
    ∃ ks, ((upload_chroma_collection g files u s e).2).blobs = g.blobs ++ ks ∧
      ∀ k ∈ ks, ∃ f, k = gcs_collection_root u s ++ f := by
  obtain ⟨gc, gb⟩ := g
  cases gc with
  | false =>
    exact ⟨rfl, [], by simp [upload_chroma_collection], by simp⟩
  | true =>
    cases files with
    | none => exact ⟨rfl, [], by simp [upload_chroma_collection], by simp⟩
    | some fl =>
      cases e with
      | none =>
        refine ⟨by simp [upload_chroma_collection],
          fl.map (fun f => gcs_collection_root u s ++ f),
          by simp [upload_chroma_collection], ?_⟩
        intro k hk
        obtain ⟨f, _, hf⟩ := List.mem_map.mp hk
        exact ⟨f, hf.symm⟩
      | some n =>
        by_cases hn : n < fl.length
        · refine ⟨by simp [upload_chroma_collection, hn],
            (fl.take n).map (fun f => gcs_collection_root u s ++ f),
            by simp [upload_chroma_collection, hn], ?_⟩
          intro k hk
          obtain ⟨f, _, hf⟩ := List.mem_map.mp hk
          exact ⟨f, hf.symm⟩
        · refine ⟨by simp [upload_chroma_collection, hn],
            fl.map (fun f => gcs_collection_root u s ++ f),
            by simp [upload_chroma_collection, hn], ?_⟩
          intro k hk
          obtain ⟨f, _, hf⟩ := List.mem_map.mp hk
          exact ⟨f, hf.symm⟩

theorem flatMap_byteHex_length (l : List Nat) :
    (l.flatMap byteHexChars).length = 2 * l.length := by
  induction l with
  | nil => rfl
  | cons a t ih =>
    simp only [List.flatMap_cons, List.length_append, ih, byteHexChars,
      List.length_cons, List.length_nil, List.length_cons]
    omega

theorem md5DigestBytes_length (m : List Nat) : (md5DigestBytes m).length = 16 := by
  simp [md5DigestBytes, wordLEBytes]

theorem md5HexChars_length (x : String) : (md5HexChars x).length = 32 := by
  unfold md5HexChars
  rw [flatMap_byteHex_length, md5DigestBytes_length]

theorem safe_id_length (x : String) : (safe_id x).length = 8 := by
  show ((md5HexChars x).take 8).length = 8
  rw [List.length_take, md5HexChars_length]
  decide

theorem hexchars_getD_mem : ∀ i, i < 16 → HEXCHARS.getD i '0' ∈ HEXCHARS := by
  decide

theorem mem_hex_of_mem_byteHex {c : Char} {b : Nat} (h : c ∈ byteHexChars b) :
    c ∈ HEXCHARS := by
  simp only [byteHexChars, List.mem_cons, List.not_mem_nil, or_false] at h
  rcases h with h | h <;>
    (rw [h]; exact hexchars_getD_mem _ (Nat.mod_lt _ (by decide)))

theorem safe_id_hex (x : String) : ∀ c ∈ (safe_id x).data, c ∈ HEXCHARS := by
  intro c hc
  have hcm : c ∈ md5HexChars x := List.take_subset 8 _ hc
  unfold md5HexChars at hcm
  obtain ⟨b, _, hb⟩ := List.mem_flatMap.mp hcm
  exact mem_hex_of_mem_byteHex hb

/-! ### Claim theorems -/

/-- C3: the collection namer is deterministic and pure — two calls with the
same `(user_id, session_id)` yield the identical CollectionId — and the
result is exactly the constant prefix, `_`, an 8-hex-character digest of
`user_id`, `_`, and an 8-hex-character digest of `session_id`. -/
theorem collection_name_deterministic_shape (u s : String) :
    generate_collection_name u s = generate_collection_name u s ∧
    generate_collection_name u s =
      CHROMA_COLLECTION_TAG ++ "_" ++ safe_id u ++ "_" ++ safe_id s ∧
    (safe_id u).length = 8 ∧ (safe_id s).length = 8 ∧
    (safe_id u).data.all (fun c => decide (c ∈ HEXCHARS)) = true ∧
    (safe_id s).data.all (fun c => decide (c ∈ HEXCHARS)) = true := by
  refine ⟨rfl, rfl, safe_id_length u, safe_id_length s, ?_, ?_⟩ <;>
    exact List.all_eq_true.mpr fun c hc => decide_eq_true (safe_id_hex _ c hc)

/-- C10: calling create with an empty chunk list raises immediately: the
error is reported before the pre-existing collection is deleted, before any
new collection is created and before any upload, and the whole state (local
index, filesystem, remote archive) is returned unchanged. -/
theorem create_empty_chunks_rejected (st : PState) (env : CreateEnv)
    (u s : String) :
    create_vector_store st env [] u s = (.error .noChunks, st) := rfl

/-- C9: on a fresh remote archive, `collection_exists` for a never-uploaded
pair returns `False`, `delete` for the same absent pair returns `True`
leaving the archive unchanged, and deleting twice equals deleting once
(the second deletion succeeds and changes nothing). -/
theorem remote_absent_and_delete_idempotent :
    collection_exists ⟨true, []⟩ "ghost" "none" false = false ∧
    delete_chroma_collection ⟨true, []⟩ "ghost" "none" false =
      (true, ⟨true, []⟩) ∧
    ∀ (g : GCS) (u s : String),
      delete_chroma_collection (delete_chroma_collection g u s false).2 u s
          false =
        (true, (delete_chroma_collection g u s false).2) := by
  refine ⟨rfl, rfl, ?_⟩
  intro g u s
  obtain ⟨gc, gb⟩ := g
  cases gc with
  | false => rfl
  | true => simp [delete_chroma_collection, filter_idem]

/-- C7 (amended): if acquiring the storage client raises at construction
time, construction raises fatally in production and otherwise completes in
degraded mode (`client = None`) in which upload, download and exists are
no-ops returning `False` and delete is a no-op returning `True`; a failed
or raising bucket accessibility check also raises fatally in production,
but in non-critical deployments construction completes with a live client
(not the degraded mode). -/
theorem gcs_init_policy :
    (∀ (acq : Bool) (check : BucketCheck),
      acq = true ∨ check ≠ BucketCheck.okExists →
        gcs_init true acq check = .error ()) ∧
    (∀ (acq : Bool) (check : BucketCheck),
      gcs_init false acq check = .ok (!acq)) ∧
    (∀ (blobs : List String) (files : Option (List String)) (u s : String)
      (e : Option Nat),
      upload_chroma_collection ⟨false, blobs⟩ files u s e =
        (false, ⟨false, blobs⟩)) ∧
    (∀ (colls fsx : List (String × List String)) (blobs : List String)
      (p u s : String) (e : Bool),
      download_chroma_collection ⟨colls, fsx, ⟨false, blobs⟩⟩ p u s e =
        (false, ⟨colls, fsx, ⟨false, blobs⟩⟩)) ∧
    (∀ (blobs : List String) (u s : String) (e : Bool),
      collection_exists ⟨false, blobs⟩ u s e = false) ∧
    (∀ (blobs : List String) (u s : String) (e : Bool),
      delete_chroma_collection ⟨false, blobs⟩ u s e = (true, ⟨false, blobs⟩)) := by
  refine ⟨?_, ?_, ?_, ?_, ?_, ?_⟩
  · intro acq check h
    cases acq with
    | true => rfl
    | false =>
      cases check with
      | okExists =>
        rcases h with h | h
        · exact absurd h (by decide)
        · exact absurd rfl h
      | notExists => rfl
      | raises => rfl
  · intro acq check
    cases acq with
    | true => rfl
    | false => cases check <;> rfl
  · intro blobs files u s e
    rfl
  · intro colls fsx blobs p u s e
    rfl
  · intro blobs u s e
    rfl
  · intro blobs u s e
    rfl

/-- Witness for `gcs_init_policy`: in production a raising acquisition and
a raising bucket check both abort construction; in development a raising
acquisition yields the degraded (`client = None`) object. -/
theorem gcs_init_policy_witness :
    gcs_init true true BucketCheck.okExists = .error () ∧
    gcs_init true false BucketCheck.raises = .error () ∧
    gcs_init false true BucketCheck.raises = .ok false :=
  ⟨gcs_init_policy.1 true BucketCheck.okExists (Or.inl rfl),
   gcs_init_policy.1 false BucketCheck.raises (Or.inr (by decide)),
   gcs_init_policy.2.1 true BucketCheck.raises⟩

/-- Counterexample to C7 as stated: with the backend unreachable at
construction time only at the bucket accessibility check, a non-critical
construction completes with a live (non-degraded) client, and a subsequent
remote failure makes `delete` return `False` — not the claimed no-op
`True`. -/
theorem gcs_init_claim_counterexample :
    gcs_init false false BucketCheck.raises = .ok true ∧
    delete_chroma_collection ⟨true, []⟩ "u" "s" true = (false, ⟨true, []⟩) :=
  ⟨rfl, rfl⟩

/-- C8 (amended): `delete_vector_store` never raises; it returns `True` iff
the local collection deletion did not raise (so it returns `False` when the
collection is absent — "not found" is not ignored) and the remote deletion
reported success; a failure while removing the local directory files is
logged and ignored (it does not affect the result); the remote step deletes
every key under the pair's root when the remote call succeeds. -/
theorem delete_result_characterization (st : PState) (rmt gerr : Bool)
    (u s : String) :
    ((delete_vector_store st ⟨rmt, gerr⟩ u s).1 = true ↔
      (alookup st.colls (generate_collection_name u s)).isSome = true ∧
        (delete_chroma_collection st.gcs u s gerr).1 = true) ∧
    (∀ rmt' : Bool,
      (delete_vector_store st ⟨rmt', gerr⟩ u s).1 =
        (delete_vector_store st ⟨rmt, gerr⟩ u s).1) ∧
    ((delete_vector_store st ⟨rmt, gerr⟩ u s).2.gcs =
      (delete_chroma_collection st.gcs u s gerr).2) ∧
    (∀ (gb : List String) (u' s' : String),
      (delete_chroma_collection ⟨true, gb⟩ u' s' false).2.blobs =
        gb.filter (fun k => !startsKey k (gcs_collection_root u' s'))) := by
  refine ⟨?_, ?_, ?_, ?_⟩
  · simp [delete_vector_store, Bool.and_eq_true]
  · intro rmt'
    rfl
  · rfl
  · intro gb u' s'
    rfl

set_option maxRecDepth 1000000 in
/-- Counterexample to C8 as stated: deleting a pair whose local collection
is absent (everything else healthy) returns `False` although the claim
says "not found" is ignored and no other step raised; and a raising local
directory removal (a failing step) still yields `True`, although the claim
says `True` is returned only if no step raised. -/
theorem delete_claim_counterexample :
    (delete_vector_store ⟨[], [], ⟨true, []⟩⟩ ⟨false, false⟩ "u1" "s1").1 =
      false ∧
    (delete_vector_store
        ⟨[(generate_collection_name "u2" "s2", ["d"])],
         [(collection_local_path "u2" "s2", ["f"])], ⟨true, []⟩⟩
        ⟨true, false⟩ "u2" "s2").1 = true := by
  exact ⟨by decide, by decide⟩

/-- Any successful `create_vector_store` call was given a nonempty chunk
list, had a faithful insert, and leaves exactly the given chunks stored
under the pair's collection name. -/
theorem create_ok_spec (st : PState) (env : CreateEnv) (chunks : List String)
    (u s : String)
    (h : okB (create_vector_store st env chunks u s).1 = true) :
    chunks ≠ [] ∧ env.insertOk = true ∧
    alookup ((create_vector_store st env chunks u s).2).colls
      (generate_collection_name u s) = some chunks := by
  by_cases hce : chunks.isEmpty = true
  · simp [create_vector_store, hce, okB] at h
  · have hce' : chunks.isEmpty = false := by
      cases hb : chunks.isEmpty with
      | true => exact absurd hb hce
      | false => rfl
    have hne : chunks ≠ [] := List.isEmpty_eq_false.mp hce'
    have hl := alookup_drop_self st.colls (generate_collection_name u s)
    cases hfd : env.fromDocsRaises with
    | true => simp [create_vector_store, hce', hfd, okB] at h
    | false =>
      cases hio : env.insertOk with
      | false =>
        simp [create_vector_store, hce', hfd, hio, okB, aset, alookup, hl] at h
      | true =>
        refine ⟨hne, rfl, ?_⟩
        simp [create_vector_store, hce', hfd, hio, aset, alookup, hl,
          List.length_eq_zero, hne]

/-- C2: after two `create` calls for the same pair (first with chunk set A,
then with chunk set B), a successful second call leaves exactly B stored
under the pair's CollectionId — the pre-existing collection is deleted
before insertion, so nothing from A remains and nothing is duplicated. -/
theorem create_replace_semantics (st0 : PState) (envA envB : CreateEnv)
    (A B : List String) (u s : String)
    (h : okB (create_vector_store
        (create_vector_store st0 envA A u s).2 envB B u s).1 = true) :
    alookup ((create_vector_store
        (create_vector_store st0 envA A u s).2 envB B u s).2).colls
      (generate_collection_name u s) = some B :=
  (create_ok_spec _ envB B u s h).2.2

set_option maxRecDepth 1000000 in
/-- Witness for `create_replace_semantics`: a concrete pair of calls, first
storing two chunks and then one, ends with exactly the second chunk set. -/
theorem create_replace_semantics_witness :
    alookup ((create_vector_store
        (create_vector_store ⟨[], [], ⟨true, []⟩⟩
          ⟨false, true, false, [], none⟩ ["a1", "a2"] "u1" "s1").2
        ⟨false, true, false, [], none⟩ ["b1"] "u1" "s1").2).colls
      (generate_collection_name "u1" "s1") = some ["b1"] :=
  create_replace_semantics ⟨[], [], ⟨true, []⟩⟩ ⟨false, true, false, [], none⟩
    ⟨false, true, false, [], none⟩ ["a1", "a2"] ["b1"] "u1" "s1" (by decide)

/-- C5: a `create` call that returns success stored a strictly positive
number of documents under the pair's collection — a call after which the
stored count is zero never returns success. -/
theorem create_success_nonempty_store (st : PState) (env : CreateEnv)
    (chunks : List String) (u s : String)
    (h : okB (create_vector_store st env chunks u s).1 = true) :
    ∃ docs, alookup ((create_vector_store st env chunks u s).2).colls
        (generate_collection_name u s) = some docs ∧ 0 < docs.length := by
  obtain ⟨hne, _, hl⟩ := create_ok_spec st env chunks u s h
  refine ⟨chunks, hl, ?_⟩
  cases chunks with
  | nil => exact absurd rfl hne
  | cons a t => simp

set_option maxRecDepth 1000000 in
/-- Witness for `create_success_nonempty_store`: a concrete successful
call stored its (nonempty) chunks. -/
theorem create_success_nonempty_store_witness :
    ∃ docs, alookup ((create_vector_store ⟨[], [], ⟨true, []⟩⟩
        ⟨false, true, false, [], none⟩ ["d"] "u2" "s1").2).colls
        (generate_collection_name "u2" "s1") = some docs ∧ 0 < docs.length :=
  create_success_nonempty_store ⟨[], [], ⟨true, []⟩⟩
    ⟨false, true, false, [], none⟩ ["d"] "u2" "s1" (by decide)

/-- C6: when the insert itself succeeds, `create` returns the usable local
vector store no matter what the remote upload does — in particular for
every upload failure oracle (including an upload that raises), the failure
is absorbed and never propagated to the caller. -/
theorem create_upload_best_effort (st : PState) (env : CreateEnv)
    (chunks : List String) (u s : String) (h1 : chunks ≠ [])
    (h2 : env.fromDocsRaises = false) (h3 : env.insertOk = true) :
    (create_vector_store st env chunks u s).1 =
      .ok (generate_collection_name u s) ∧
    alookup ((create_vector_store st env chunks u s).2).colls
      (generate_collection_name u s) = some chunks := by
  have hce' : chunks.isEmpty = false := List.isEmpty_eq_false.mpr h1
  have hl := alookup_drop_self st.colls (generate_collection_name u s)
  constructor <;>
    simp [create_vector_store, hce', h2, h3, aset, alookup, hl,
      List.length_eq_zero, h1]

set_option maxRecDepth 1000000 in
/-- Witness for `create_upload_best_effort`: a concrete call whose upload
raises on its first blob (`uploadErrAt = some 0`) still returns the usable
store. -/
theorem create_upload_best_effort_witness :
    (create_vector_store ⟨[], [], ⟨true, []⟩⟩
        ⟨false, true, true, ["f"], some 0⟩ ["d"] "u1" "s2").1 =
      .ok (generate_collection_name "u1" "s2") ∧
    alookup ((create_vector_store ⟨[], [], ⟨true, []⟩⟩
        ⟨false, true, true, ["f"], some 0⟩ ["d"] "u1" "s2").2).colls
      (generate_collection_name "u1" "s2") = some ["d"] :=
  create_upload_best_effort ⟨[], [], ⟨true, []⟩⟩
    ⟨false, true, true, ["f"], some 0⟩ ["d"] "u1" "s2" (by decide) rfl rfl

/-- C1: `load` serves the local handle exactly when the local collection is
present, nonempty and its liveness probe succeeds; on a local miss with no
remote keys it returns `none` (not an exception); on a local miss with
remote keys it downloads and retries open plus probe — on probe/open
failure it deletes the corrupted local directory and returns `none`, on
success it returns the rehydrated handle, and on a failed download it
returns `none`; and a returned handle always passed its own liveness
probe. -/
theorem load_lifecycle (st : PState) (env : LoadEnv) (u s : String) :
    (((alookup st.colls (generate_collection_name u s)).getD [] ≠ [] ∧
        env.localProbeThrows = false) →
      load_vector_store st env u s =
        (some (generate_collection_name u s), st)) ∧
    ((local_live st env (generate_collection_name u s) = false ∧
        collection_exists st.gcs u s env.gcsNetErr = false) →
      load_vector_store st env u s = (none, st)) ∧
    ((local_live st env (generate_collection_name u s) = false ∧
        collection_exists st.gcs u s env.gcsNetErr = true ∧
        (download_chroma_collection st (collection_local_path u s) u s
          env.dlNetErr).1 = true ∧
        (env.dlProbeThrows = true ∨ env.dlGetCollThrows = true)) →
      (load_vector_store st env u s).1 = none ∧
        alookup (load_vector_store st env u s).2.fs
          (collection_local_path u s) = none) ∧
    ((local_live st env (generate_collection_name u s) = false ∧
        collection_exists st.gcs u s env.gcsNetErr = true ∧
        (download_chroma_collection st (collection_local_path u s) u s
          env.dlNetErr).1 = true ∧
        env.dlProbeThrows = false ∧ env.dlGetCollThrows = false) →
      load_vector_store st env u s =
        (some (generate_collection_name u s),
          (download_chroma_collection st (collection_local_path u s) u s
            env.dlNetErr).2)) ∧
    ((local_live st env (generate_collection_name u s) = false ∧
        collection_exists st.gcs u s env.gcsNetErr = true ∧
        (download_chroma_collection st (collection_local_path u s) u s
          env.dlNetErr).1 = false) →
      load_vector_store st env u s =
        (none, (download_chroma_collection st (collection_local_path u s) u s
          env.dlNetErr).2)) ∧
    ((load_vector_store st env u s).1 ≠ none →
      local_live st env (generate_collection_name u s) = true ∨
        (env.dlProbeThrows = false ∧ env.dlGetCollThrows = false ∧
          (download_chroma_collection st (collection_local_path u s) u s
            env.dlNetErr).1 = true)) := by
  refine ⟨?_, ?_, ?_, ?_, ?_, ?_⟩
  · rintro ⟨h1, h2⟩
    have hlive : local_live st env (generate_collection_name u s) = true := by
      unfold local_live
      cases hc : alookup st.colls (generate_collection_name u s) with
      | none => rw [hc] at h1; exact absurd rfl h1
      | some docs =>
        rw [hc] at h1
        simp only [Option.getD_some] at h1
        simp [h2, List.length_pos.mpr h1]
    simp [load_vector_store, hlive]
  · rintro ⟨h1, h2⟩
    simp [load_vector_store, h1, h2]
  · rintro ⟨h1, h2, h3, h4⟩
    rcases h4 with h4 | h4 <;>
      simp [load_vector_store, h1, h2, h3, h4, alookup_drop_self]
  · rintro ⟨h1, h2, h3, h4, h5⟩
    simp [load_vector_store, h1, h2, h3, h4, h5]
  · rintro ⟨h1, h2, h3⟩
    simp [load_vector_store, h1, h2, h3]
  · intro h
    cases hlv : local_live st env (generate_collection_name u s) with
    | true => exact Or.inl rfl
    | false =>
      cases hex : collection_exists st.gcs u s env.gcsNetErr with
      | false => simp [load_vector_store, hlv, hex] at h
      | true =>
        cases hdl : (download_chroma_collection st
            (collection_local_path u s) u s env.dlNetErr).1 with
        | false => simp [load_vector_store, hlv, hex, hdl] at h
        | true =>
          cases hp : env.dlProbeThrows with
          | true => simp [load_vector_store, hlv, hex, hdl, hp] at h
          | false =>
            cases hg : env.dlGetCollThrows with
            | true => simp [load_vector_store, hlv, hex, hdl, hp, hg] at h
            | false => exact Or.inr ⟨rfl, rfl, rfl⟩

set_option maxRecDepth 1000000 in
/-- Witness for `load_lifecycle`: a live local collection is served as-is;
an absent pair on a fresh archive yields `none`; a remote rehydration whose
probe throws yields `none` with the corrupted directory removed. -/
theorem load_lifecycle_witness :
    load_vector_store ⟨[(generate_collection_name "u1" "s1", ["d"])], [],
        ⟨true, []⟩⟩ ⟨false, false, false, false, false⟩ "u1" "s1" =
      (some (generate_collection_name "u1" "s1"),
        ⟨[(generate_collection_name "u1" "s1", ["d"])], [], ⟨true, []⟩⟩) ∧
    load_vector_store ⟨[], [], ⟨true, []⟩⟩
        ⟨false, false, false, false, false⟩ "u1" "s1" =
      (none, ⟨[], [], ⟨true, []⟩⟩) ∧
    ((load_vector_store ⟨[], [], ⟨true, ["chroma_db/u1/s1/f"]⟩⟩
        ⟨false, false, false, true, false⟩ "u1" "s1").1 = none ∧
      alookup (load_vector_store ⟨[], [], ⟨true, ["chroma_db/u1/s1/f"]⟩⟩
          ⟨false, false, false, true, false⟩ "u1" "s1").2.fs
        (collection_local_path "u1" "s1") = none) :=
  ⟨(load_lifecycle ⟨[(generate_collection_name "u1" "s1", ["d"])], [],
      ⟨true, []⟩⟩ ⟨false, false, false, false, false⟩ "u1" "s1").1
      ⟨by decide, rfl⟩,
   (load_lifecycle ⟨[], [], ⟨true, []⟩⟩
      ⟨false, false, false, false, false⟩ "u1" "s1").2.1 ⟨by decide, by decide⟩,
   (load_lifecycle ⟨[], [], ⟨true, ["chroma_db/u1/s1/f"]⟩⟩
      ⟨false, false, false, true, false⟩ "u1" "s1").2.2.1
      ⟨by decide, by decide, by decide, Or.inl rfl⟩⟩

theorem filter_append_none {ks blobs : List String} {r2 : String}
    (hks : ∀ k ∈ ks, startsKey k r2 = false) :
    (blobs ++ ks).filter (fun k => startsKey k r2) =
      blobs.filter (fun k => startsKey k r2) := by
  have h0 : ks.filter (fun k => startsKey k r2) = [] :=
    List.filter_eq_nil_iff.mpr (fun k hk => by simp [hks k hk])
  rw [List.filter_append, h0, List.append_nil]

theorem any_append_none {ks blobs : List String} {r2 : String}
    (hks : ∀ k ∈ ks, startsKey k r2 = false) :
    (blobs ++ ks).any (fun k => startsKey k r2) =
      blobs.any (fun k => startsKey k r2) := by
  have h0 : ks.any (fun k => startsKey k r2) = false :=
    List.any_eq_false.mpr (fun k hk => by simp [hks k hk])
  rw [List.any_append, h0, Bool.or_false]

theorem keys_not_under {ks : List String} {r1 r2 : String}
    (hsh : ∀ k ∈ ks, ∃ f, k = r1 ++ f)
    (h12 : r1.data.isPrefixOf r2.data = false)
    (h21 : r2.data.isPrefixOf r1.data = false) :
    ∀ k ∈ ks, startsKey k r2 = false := by
  intro k hk
  obtain ⟨f, hf⟩ := hsh k hk
  rw [hf]
  exact startsKey_append_false h12 h21 f

/-- `create_vector_store` only appends remote keys, all under its own
pair's root, and keeps the client flag. -/
theorem create_gcs_shape (st : PState) (env : CreateEnv)
    (chunks : List String) (u1 s1 : String) :
    ((create_vector_store st env chunks u1 s1).2).gcs.client =
      st.gcs.client ∧
    ∃ ks, ((create_vector_store st env chunks u1 s1).2).gcs.blobs =
        st.gcs.blobs ++ ks ∧
      ∀ k ∈ ks, ∃ f, k = gcs_collection_root u1 s1 ++ f := by
  by_cases hce : chunks.isEmpty = true
  · exact ⟨by simp [create_vector_store, hce],
      ⟨[], by simp [create_vector_store, hce], by simp⟩⟩
  · have hce' : chunks.isEmpty = false := by
      cases hb : chunks.isEmpty with
      | true => exact absurd hb hce
      | false => rfl
    have hne : chunks ≠ [] := List.isEmpty_eq_false.mp hce'
    have hl := alookup_drop_self st.colls (generate_collection_name u1 s1)
    cases hfd : env.fromDocsRaises with
    | true =>
      exact ⟨by simp [create_vector_store, hce', hfd],
        ⟨[], by simp [create_vector_store, hce', hfd], by simp⟩⟩
    | false =>
      cases hio : env.insertOk with
      | false =>
        exact ⟨by simp [create_vector_store, hce', hfd, hio, aset, alookup, hl],
          ⟨[], by simp [create_vector_store, hce', hfd, hio, aset, alookup, hl],
            by simp⟩⟩
      | true =>
        cases hpd : env.persistsDir with
        | false =>
          cases hfsl : alookup st.fs (collection_local_path u1 s1) with
          | none =>
            exact ⟨by simp [create_vector_store, hce', hfd, hio, hpd, aset,
                alookup, hl, List.length_eq_zero, hne, hfsl],
              ⟨[], by simp [create_vector_store, hce', hfd, hio, hpd, aset,
                alookup, hl, List.length_eq_zero, hne, hfsl], by simp⟩⟩
          | some files =>
            have hsh := upload_shape st.gcs (some files) u1 s1 env.uploadErrAt
            obtain ⟨ks, hb, hkk⟩ := hsh.2
            refine ⟨?_, ⟨ks, ?_, hkk⟩⟩
            · simp [create_vector_store, hce', hfd, hio, hpd, aset, alookup,
                hl, List.length_eq_zero, hne, hfsl]
              exact hsh.1
            · simp [create_vector_store, hce', hfd, hio, hpd, aset, alookup,
                hl, List.length_eq_zero, hne, hfsl]
              exact hb
        | true =>
          have hfsl := alookup_aset_self st.fs (collection_local_path u1 s1)
            env.persistedFiles
          have hsh := upload_shape st.gcs (some env.persistedFiles) u1 s1
            env.uploadErrAt
          obtain ⟨ks, hb, hkk⟩ := hsh.2
          refine ⟨?_, ⟨ks, ?_, hkk⟩⟩
          · simp [create_vector_store, hce', hfd, hio, hpd, aset, alookup,
              hl, List.length_eq_zero, hne, hfsl]
            exact hsh.1
          · simp [create_vector_store, hce', hfd, hio, hpd, aset, alookup,
              hl, List.length_eq_zero, hne, hfsl]
            exact hb

/-- `create_vector_store` leaves every other collection name and every
other local directory unchanged. -/
theorem create_other_keys (st : PState) (env : CreateEnv)
    (chunks : List String) (u1 s1 : String) {n2 p2 : String}
    (hn : n2 ≠ generate_collection_name u1 s1)
    (hp : p2 ≠ collection_local_path u1 s1) :
    alookup ((create_vector_store st env chunks u1 s1).2).colls n2 =
      alookup st.colls n2 ∧
    alookup ((create_vector_store st env chunks u1 s1).2).fs p2 =
      alookup st.fs p2 := by
  by_cases hce : chunks.isEmpty = true
  · constructor <;> simp [create_vector_store, hce]
  · have hce' : chunks.isEmpty = false := by
      cases hb : chunks.isEmpty with
      | true => exact absurd hb hce
      | false => rfl
    have hne : chunks ≠ [] := List.isEmpty_eq_false.mp hce'
    have hl := alookup_drop_self st.colls (generate_collection_name u1 s1)
    have hdn := alookup_drop_ne st.colls hn
    have hn' : generate_collection_name u1 s1 ≠ n2 := fun h => hn h.symm
    have hp' : collection_local_path u1 s1 ≠ p2 := fun h => hp h.symm
    cases hfd : env.fromDocsRaises with
    | true => constructor <;> simp [create_vector_store, hce', hfd, hdn]
    | false =>
      cases hio : env.insertOk with
      | false =>
        cases hpd : env.persistsDir with
        | false =>
          constructor <;>
            simp [create_vector_store, hce', hfd, hio, hpd, aset, alookup, hl,
              alookup_aremove_ne _ hn, hdn, hn, hn']
        | true =>
          constructor <;>
            simp [create_vector_store, hce', hfd, hio, hpd, aset, alookup, hl,
              alookup_aremove_ne _ hn, alookup_aremove_ne _ hp, hdn, hn, hn',
              hp, hp']
      | true =>
        cases hpd : env.persistsDir with
        | false =>
          cases hfsl : alookup st.fs (collection_local_path u1 s1) with
          | none =>
            constructor <;>
              simp [create_vector_store, hce', hfd, hio, hpd, aset, alookup,
                hl, List.length_eq_zero, hne, hfsl,
                alookup_aremove_ne _ hn, hdn, hn, hn']
          | some files =>
            constructor <;>
              simp [create_vector_store, hce', hfd, hio, hpd, aset, alookup,
                hl, List.length_eq_zero, hne, hfsl,
                alookup_aremove_ne _ hn, hdn, hn, hn']
        | true =>
          have hfsl := alookup_aset_self st.fs (collection_local_path u1 s1)
            env.persistedFiles
          constructor <;>
            simp [create_vector_store, hce', hfd, hio, hpd, aset, alookup,
              hl, List.length_eq_zero, hne, hfsl, alookup_aremove_ne _ hn,
              alookup_aremove_ne _ hp, hdn, hn, hp, hn', hp']

/-- C4 (amended): provided the two pairs derive different CollectionIds and
neither pair's remote key root is a string prefix of the other's, creating
a collection for `(u1, s1)` never mutates or becomes visible under
`(u2, s2)`: the other pair's local collection, local directory, remote keys
and remote existence check are all unchanged. -/
theorem create_isolation (st : PState) (env : CreateEnv)
    (chunks : List String) (u1 s1 u2 s2 : String) (e : Bool)
    (hname : generate_collection_name u1 s1 ≠ generate_collection_name u2 s2)
    (h12 : (gcs_collection_root u1 s1).data.isPrefixOf
      (gcs_collection_root u2 s2).data = false)
    (h21 : (gcs_collection_root u2 s2).data.isPrefixOf
      (gcs_collection_root u1 s1).data = false) :
    alookup ((create_vector_store st env chunks u1 s1).2).colls
        (generate_collection_name u2 s2) =
      alookup st.colls (generate_collection_name u2 s2) ∧
    alookup ((create_vector_store st env chunks u1 s1).2).fs
        (collection_local_path u2 s2) =
      alookup st.fs (collection_local_path u2 s2) ∧
    ((create_vector_store st env chunks u1 s1).2).gcs.blobs.filter
        (fun k => startsKey k (gcs_collection_root u2 s2)) =
      st.gcs.blobs.filter
        (fun k => startsKey k (gcs_collection_root u2 s2)) ∧
    collection_exists ((create_vector_store st env chunks u1 s1).2).gcs
        u2 s2 e =
      collection_exists st.gcs u2 s2 e := by
  have hok := create_other_keys st env chunks u1 s1
    (Ne.symm hname) (Ne.symm (local_path_ne hname))
  have hcl := (create_gcs_shape st env chunks u1 s1).1
  obtain ⟨ks, hb, hkk⟩ := (create_gcs_shape st env chunks u1 s1).2
  have hks := keys_not_under hkk h12 h21
  refine ⟨hok.1, hok.2, ?_, ?_⟩
  · rw [hb, filter_append_none hks]
  · cases hcst : st.gcs.client <;> cases e <;>
      simp [collection_exists, hcl, hb, hcst, any_append_none hks]

set_option maxRecDepth 1000000 in
/-- Witness for `create_isolation`: creating for `("u1", "s1")` leaves the
pre-existing collection, directory and remote keys of `("u2", "s2")`
untouched. -/
theorem create_isolation_witness :
    alookup ((create_vector_store
        ⟨[(generate_collection_name "u2" "s2", ["x"])], [],
          ⟨true, ["chroma_db/u2/s2/g"]⟩⟩
        ⟨false, true, true, ["f"], none⟩ ["d"] "u1" "s1").2).colls
        (generate_collection_name "u2" "s2") =
      alookup [(generate_collection_name "u2" "s2", ["x"])]
        (generate_collection_name "u2" "s2") ∧
    alookup ((create_vector_store
        ⟨[(generate_collection_name "u2" "s2", ["x"])], [],
          ⟨true, ["chroma_db/u2/s2/g"]⟩⟩
        ⟨false, true, true, ["f"], none⟩ ["d"] "u1" "s1").2).fs
        (collection_local_path "u2" "s2") =
      alookup ([] : List (String × List String))
        (collection_local_path "u2" "s2") ∧
    ((create_vector_store
        ⟨[(generate_collection_name "u2" "s2", ["x"])], [],
          ⟨true, ["chroma_db/u2/s2/g"]⟩⟩
        ⟨false, true, true, ["f"], none⟩ ["d"] "u1" "s1").2).gcs.blobs.filter
        (fun k => startsKey k (gcs_collection_root "u2" "s2")) =
      (["chroma_db/u2/s2/g"] : List String).filter
        (fun k => startsKey k (gcs_collection_root "u2" "s2")) ∧
    collection_exists ((create_vector_store
        ⟨[(generate_collection_name "u2" "s2", ["x"])], [],
          ⟨true, ["chroma_db/u2/s2/g"]⟩⟩
        ⟨false, true, true, ["f"], none⟩ ["d"] "u1" "s1").2).gcs
        "u2" "s2" false =
      collection_exists ⟨true, ["chroma_db/u2/s2/g"]⟩ "u2" "s2" false :=
  create_isolation
    ⟨[(generate_collection_name "u2" "s2", ["x"])], [],
      ⟨true, ["chroma_db/u2/s2/g"]⟩⟩
    ⟨false, true, true, ["f"], none⟩ ["d"] "u1" "s1" "u2" "s2" false
    (by decide) (by decide) (by decide)

set_option maxRecDepth 1000000 in
/-- Counterexample to C4 as stated: the distinct pairs `("a/b", "c")` and
`("a", "b/c")` share the same remote key root, so a create for the first
becomes visible to the second pair's remote existence check. -/
theorem create_isolation_counterexample :
    ((("a/b" : String), ("c" : String)) ≠ (("a" : String), ("b/c" : String))) ∧
    gcs_collection_root "a/b" "c" = gcs_collection_root "a" "b/c" ∧
    collection_exists ⟨true, []⟩ "a" "b/c" false = false ∧
    okB (create_vector_store ⟨[], [], ⟨true, []⟩⟩
      ⟨false, true, true, ["f"], none⟩ ["d"] "a/b" "c").1 = true ∧
    collection_exists (create_vector_store ⟨[], [], ⟨true, []⟩⟩
        ⟨false, true, true, ["f"], none⟩ ["d"] "a/b" "c").2.gcs
      "a" "b/c" false = true :=
  ⟨by decide, by decide, by decide, by decide, by decide⟩

end DocQA

